import Mathlib

/-
Verification development for the snap-coin-node repository.

The repository has three source files: src/main.rs (CLI argument loop, seed
resolution, node startup, a copy of the IBD driver, and the TUI call),
src/sync.rs (the IBD driver sync_blockchain), and src/tui.rs (terminal UI,
out of scope of the claims).

Shallow embedding conventions:
- Hash and Address are Nat (32-byte identifiers and addresses are opaque to
  the code under verification; only equality matters).
- Block carries the fields the claims observe. The field hash models the
  hash of the block as the snap_coin library would compute it; the sync
  driver never computes it, which is precisely what some claims are about.
- The remote peer is an oracle: a function from the zero-based index of the
  request within the run and the request command to an Except-valued reply,
  mirroring that Peer::request either yields a reply command or fails with
  a transport error that the question-mark operator propagates.
- add_block lives in the snap_coin library, not under src/, so the IBD
  driver is parametric in it: an AddBlockFn takes the current chain and a
  block and either returns the extended chain or an error, matching the
  contract in spec section 4.3 (atomic success or unchanged store).
- A run is summarized by a SyncResult: the ordered trace of observable
  events (requests issued, blocks handed to add_block, log lines), the
  final chain, and the returned Result.
-/

abbrev Hash := Nat

abbrev Address := Nat

deriving instance DecidableEq for Except

/-- Model of a snap-coin block as far as the claims observe it: its library
hash, its transaction list (transactions are opaque ids), its coinbase
recipient, and a mined flag. The mined flag models whether compute_pow has
produced a valid pow digest (spec sections 3 and 4.2). -/
structure Block where
  hash : Nat
  transactions : List Nat
  coinbase : Address
  pow_ok : Bool
  deriving DecidableEq

/-- The subset of the wire Command enum (spec section 4.4) that the code in
src/main.rs and src/sync.rs constructs or matches on. -/
inductive Command where
  | Ping (height : Nat)
  | Pong (height : Nat)
  | GetBlockHashes (start : Nat) (end_ : Nat)
  | GetBlockHashesResponse (block_hashes : List Hash)
  | GetBlock (block_hash : Hash)
  | GetBlockResponse (block : Option Block)
  deriving DecidableEq

/-- Observable events of an IBD run: a request written to the peer, a block
passed to add_block, or a Node::log line. -/
inductive Event where
  | req (c : Command)
  | add (b : Block)
  | log (s : String)
  deriving DecidableEq

/-- Outcome of a sync_blockchain run: the ordered event trace, the final
blockchain, and the Result value. -/
structure SyncResult where
  trace : List Event
  chain : List Block
  res : Except String Unit

/-- Peer-response oracle: Peer::request number k (zero-based, counted over
the whole run) on a given request either returns a reply command or fails
with a transport error. -/
abbrev Oracle := Nat → Command → Except String Command

/-- The add_block entry point of the snap_coin library, abstracted: given
the current chain and a block, either the extended chain or an error. -/
abbrev AddBlockFn := List Block → Block → Except String (List Block)

/-- Modelled from the spec: the base36 codec used by Hash.dump_base36 for
log and error text (spec section 3). The exact digit alphabet is immaterial
to every claim; what matters is that the error strings of the IBD driver
embed the requested hash. -/
def dump_base36 (h : Hash) : String :=
  String.mk (Nat.toDigits 36 h)

/-- Modelled from the spec: Blockchain::get_height of the snap_coin
library, which is not under src/. Per spec section 4.3 it returns the tip
height plus one (0 if empty), i.e. the length of the ordered block
sequence. -/
def get_height (chain : List Block) : Nat :=
  chain.length

namespace SyncRs

/-- The for-loop of sync_blockchain in src/sync.rs lines 46 to 65: for each
hash in order, issue GetBlock, match the reply, and on a present block call
add_block, propagating its error; a non-GetBlockResponse reply or an absent
block aborts with the could-not-fetch error. The Nat argument is the index
of the next Peer::request within the run. -/
def syncLoop (oracle : Oracle) (addBlock : AddBlockFn) :
    Nat → List Block → List Hash → SyncResult
  | _, chain, [] => { trace := [], chain := chain, res := .ok () }
  | k, chain, h :: hs =>
    match oracle k (Command.GetBlock h) with
    | .error e =>
      { trace := [Event.req (Command.GetBlock h)], chain := chain, res := .error e }
    | .ok c =>
      match c with
      | Command.GetBlockResponse ob =>
        match ob with
        | some block =>
          match addBlock chain block with
          | .ok chain1 =>
            let r := syncLoop oracle addBlock (k + 1) chain1 hs
            { trace := Event.req (Command.GetBlock h) :: Event.add block :: r.trace,
              chain := r.chain, res := r.res }
          | .error e =>
            { trace := [Event.req (Command.GetBlock h), Event.add block],
              chain := chain, res := .error e }
        | none =>
          { trace := [Event.req (Command.GetBlock h)], chain := chain,
            res := .error ("Could not fetch peer block " ++ dump_base36 h) }
      | _ =>
        { trace := [Event.req (Command.GetBlock h)], chain := chain,
          res := .error ("Could not fetch peer block " ++ dump_base36 h) }

/-- Embedding of sync_blockchain from src/sync.rs lines 7 to 68: log twice,
read the local height, Ping and expect Pong, GetBlockHashes over the local
and remote heights and expect GetBlockHashesResponse, log, then the
per-hash loop. -/
def sync_blockchain (oracle : Oracle) (addBlock : AddBlockFn)
    (chain : List Block) : SyncResult :=
  let l1 := Event.log "[SYNC] Starting initial block download"
  let l2 := Event.log "[SYNC] Fetching block hashes"
  let local_height := get_height chain
  match oracle 0 (Command.Ping local_height) with
  | .error e =>
    { trace := [l1, l2, Event.req (Command.Ping local_height)],
      chain := chain, res := .error e }
  | .ok c =>
    match c with
    | Command.Pong remote_height =>
      match oracle 1 (Command.GetBlockHashes local_height remote_height) with
      | .error e =>
        { trace := [l1, l2, Event.req (Command.Ping local_height),
            Event.req (Command.GetBlockHashes local_height remote_height)],
          chain := chain, res := .error e }
      | .ok c2 =>
        match c2 with
        | Command.GetBlockHashesResponse block_hashes =>
          let r := syncLoop oracle addBlock 2 chain block_hashes
          { trace := l1 :: l2 :: Event.req (Command.Ping local_height) ::
              Event.req (Command.GetBlockHashes local_height remote_height) ::
              Event.log "[SYNC] Fetched block hashes" :: r.trace,
            chain := r.chain, res := r.res }
        | _ =>
          { trace := [l1, l2, Event.req (Command.Ping local_height),
              Event.req (Command.GetBlockHashes local_height remote_height)],
            chain := chain,
            res := .error "Could not fetch peer block hashes to sync blockchain" }
    | _ =>
      { trace := [l1, l2, Event.req (Command.Ping local_height)],
        chain := chain,
        res := .error "Could not fetch peer height to sync blockchain" }

end SyncRs

namespace MainRs

/-- The for-loop of sync_blockchain in src/main.rs lines 72 to 91; it is
textually identical to the loop in src/sync.rs. -/
def syncLoop (oracle : Oracle) (addBlock : AddBlockFn) :
    Nat → List Block → List Hash → SyncResult
  | _, chain, [] => { trace := [], chain := chain, res := .ok () }
  | k, chain, h :: hs =>
    match oracle k (Command.GetBlock h) with
    | .error e =>
      { trace := [Event.req (Command.GetBlock h)], chain := chain, res := .error e }
    | .ok c =>
      match c with
      | Command.GetBlockResponse ob =>
        match ob with
        | some block =>
          match addBlock chain block with
          | .ok chain1 =>
            let r := syncLoop oracle addBlock (k + 1) chain1 hs
            { trace := Event.req (Command.GetBlock h) :: Event.add block :: r.trace,
              chain := r.chain, res := r.res }
          | .error e =>
            { trace := [Event.req (Command.GetBlock h), Event.add block],
              chain := chain, res := .error e }
        | none =>
          { trace := [Event.req (Command.GetBlock h)], chain := chain,
            res := .error ("Could not fetch peer block " ++ dump_base36 h) }
      | _ =>
        { trace := [Event.req (Command.GetBlock h)], chain := chain,
          res := .error ("Could not fetch peer block " ++ dump_base36 h) }

/-- Embedding of sync_blockchain from src/main.rs lines 33 to 94. It
differs from the src/sync.rs version only in the first log string. -/
def sync_blockchain (oracle : Oracle) (addBlock : AddBlockFn)
    (chain : List Block) : SyncResult :=
  let l1 := Event.log "[SYNC] Starting blockchain sync"
  let l2 := Event.log "[SYNC] Fetching block hashes"
  let local_height := get_height chain
  match oracle 0 (Command.Ping local_height) with
  | .error e =>
    { trace := [l1, l2, Event.req (Command.Ping local_height)],
      chain := chain, res := .error e }
  | .ok c =>
    match c with
    | Command.Pong remote_height =>
      match oracle 1 (Command.GetBlockHashes local_height remote_height) with
      | .error e =>
        { trace := [l1, l2, Event.req (Command.Ping local_height),
            Event.req (Command.GetBlockHashes local_height remote_height)],
          chain := chain, res := .error e }
      | .ok c2 =>
        match c2 with
        | Command.GetBlockHashesResponse block_hashes =>
          let r := syncLoop oracle addBlock 2 chain block_hashes
          { trace := l1 :: l2 :: Event.req (Command.Ping local_height) ::
              Event.req (Command.GetBlockHashes local_height remote_height) ::
              Event.log "[SYNC] Fetched block hashes" :: r.trace,
            chain := r.chain, res := r.res }
        | _ =>
          { trace := [l1, l2, Event.req (Command.Ping local_height),
              Event.req (Command.GetBlockHashes local_height remote_height)],
            chain := chain,
            res := .error "Could not fetch peer block hashes to sync blockchain" }
    | _ =>
      { trace := [l1, l2, Event.req (Command.Ping local_height)],
        chain := chain,
        res := .error "Could not fetch peer height to sync blockchain" }

end MainRs

/-- Requests issued during a run, in order. -/
def requestEvent : Event → Option Command
  | Event.req c => some c
  | _ => none

/-- Blocks passed to add_block during a run, in order. -/
def addEvent : Event → Option Block
  | Event.add b => some b
  | _ => none

/-- Ordered list of requests a run issued. -/
def requestsOf (r : SyncResult) : List Command :=
  r.trace.filterMap requestEvent

/-- Ordered list of blocks a run passed to add_block. -/
def addsOf (r : SyncResult) : List Block :=
  r.trace.filterMap addEvent

/-- FetchAddOk oracle addBlock k chain pre chain2 says: starting at request
index k and chain, each pair (h, b) in pre in order is a GetBlock request
answered with exactly block b which add_block then accepts, ending in chain
chain2. This is the hypothesis shape describing a successfully applied
prefix of the hash batch. -/
def FetchAddOk (oracle : Oracle) (addBlock : AddBlockFn) :
    Nat → List Block → List (Hash × Block) → List Block → Prop
  | _, chain, [], chain2 => chain2 = chain
  | k, chain, (h, b) :: rest, chain2 =>
    oracle k (Command.GetBlock h) = Except.ok (Command.GetBlockResponse (some b)) ∧
    ∃ c1, addBlock chain b = Except.ok c1 ∧
      FetchAddOk oracle addBlock (k + 1) c1 rest chain2

/-- Event sequence of a successfully applied prefix: for each pair, the
GetBlock request followed by the add_block call. -/
def interleaveEvents : List (Hash × Block) → List Event
  | [] => []
  | (h, b) :: rest =>
    Event.req (Command.GetBlock h) :: Event.add b :: interleaveEvents rest

/-- Node configuration accumulated by the argument loop of src/main.rs
lines 236 to 278. The debug branch of the loop only initializes a tracing
subscriber and sets no configuration, so it has no field here. -/
structure Config where
  peers : List String
  node_path : String
  start_api : Bool
  api_port : Nat
  node_port : Nat
  create_genesis : Bool
  deriving DecidableEq

/-- Initial values of the mutable configuration variables, src/main.rs
lines 237 to 242. -/
def default_config : Config :=
  { peers := [], node_path := "./node-testnet", start_api := true,
    api_port := 3003, node_port := 8998, create_genesis := false }

/-- Splitting a character list at a separator, accumulating the current
field in reverse; models the semantics of the Rust str::split iterator:
the empty string yields one empty field and each separator starts a new
field. -/
def split_aux (sep : Char) : List Char → List Char → List String
  | acc, [] => [String.mk acc.reverse]
  | acc, c :: rest =>
    if c = sep then String.mk acc.reverse :: split_aux sep [] rest
    else split_aux sep (c :: acc) rest

/-- The split on commas applied to the value of the peers argument in
src/main.rs line 250. -/
def split_commas (s : String) : List String :=
  split_aux ',' [] s.data

/-- Decimal parse modelling str::parse for the port arguments: all
characters must be digits and there must be at least one. The numeric
width limits of the Rust integer types are not modelled; no claim depends
on them. -/
def parse_decimal (s : String) : Option Nat :=
  if s.data ≠ [] ∧ s.data.all (fun c => c.isDigit) then
    some (s.data.foldl (fun n c => n * 10 + (c.toNat - 48)) 0)
  else none

/-- One iteration of the argument loop of src/main.rs lines 248 to 278 for
the argument a at index i of args. Ports are parsed with expect, which
aborts on a malformed number; that abort is modelled as the error case. -/
def parse_step (args : List String) (cfg : Config) (i : Nat) (a : String) :
    Except String Config := do
  let cfg := if a = "--peers" ∧ (args.get? (i + 1)).isSome then
      { cfg with peers := split_commas (args.getD (i + 1) "") } else cfg
  let cfg := if a = "--node-path" ∧ (args.get? (i + 1)).isSome then
      { cfg with node_path := args.getD (i + 1) "" } else cfg
  let cfg := if a = "--no-api" then { cfg with start_api := false } else cfg
  let cfg := if a = "--create-genesis" then { cfg with create_genesis := true } else cfg
  let cfg ← if a = "--api-port" ∧ (args.get? (i + 1)).isSome then
      match parse_decimal (args.getD (i + 1) "") with
      | some n => pure { cfg with api_port := n }
      | none => Except.error "Invalid api port parameter"
    else pure cfg
  let cfg ← if a = "--node-port" ∧ (args.get? (i + 1)).isSome then
      match parse_decimal (args.getD (i + 1) "") with
      | some n => pure { cfg with node_port := n }
      | none => Except.error "Invalid node port parameter"
    else pure cfg
  pure cfg

/-- The whole argument loop of src/main.rs lines 248 to 278: fold the
per-argument step over the enumerated argument vector, starting from the
defaults. The argument vector includes the program name at index 0, as
std::env::args does. -/
def parse_args (args : List String) : Except String Config :=
  args.enum.foldlM (fun cfg p => parse_step args cfg p.1 p.2) default_config

/-- Snapshot of the coordinator flags the temporal claims observe:
the is_syncing flag and whether the spawned sync task is alive. -/
structure NodeFlags where
  is_syncing : Bool
  sync_task_alive : Bool
  deriving DecidableEq

/-- Outcome of the node startup path of src/main.rs lines 297 to 330: the
flag states passed through in program order, and whether the path aborts
in a panic before completing. -/
structure StartupRun where
  flags : List NodeFlags
  panicked : Bool
  deriving DecidableEq

/-- Flag states of the node startup path of src/main.rs lines 297 to 330.
Line 298 sets is_syncing to true; that state persists through Node::init,
the API start, and the optional genesis creation (lines 299 to 316),
during which no sync task exists. Line 317 tests the raw peers argument
list. When it is nonempty, line 318 indexes the live peer registry at
position 0: whether the registry holds an entry by then is decided by the
snap_coin library (dialing of the resolved seeds, inbound connections) and
enters here as the node_has_peer parameter. With a peer present, line 320
spawns the sync task, the task sets is_syncing to false at line 326 as its
last statement and then finishes. With the registry empty, the index on
line 318 panics: the process aborts with is_syncing still true and no sync
task ever spawned. When the peers argument list is empty, line 329 clears
the flag directly on the main task. Any concurrent reader of the node can
observe each listed state. -/
def main_startup_trace (seeds_nonempty : Bool) (node_has_peer : Bool) :
    StartupRun :=
  if seeds_nonempty then
    if node_has_peer then
      { flags := [{ is_syncing := true, sync_task_alive := false },
          { is_syncing := true, sync_task_alive := true },
          { is_syncing := false, sync_task_alive := true },
          { is_syncing := false, sync_task_alive := false }],
        panicked := false }
    else
      { flags := [{ is_syncing := true, sync_task_alive := false }],
        panicked := true }
  else
    { flags := [{ is_syncing := true, sync_task_alive := false },
        { is_syncing := false, sync_task_alive := false }],
      panicked := false }

/-- One iteration of the seed resolution loop of src/main.rs lines 282 to
295. Addresses are opaque Nat values; lookup models tokio lookup_host. The
accumulator carries the resolved address list and the stderr lines printed
so far. A failed lookup or an empty address list appends a diagnostic and
resolves nothing; the loop never aborts. -/
def resolve_step (lookup : String → Except String (List Nat))
    (acc : List Nat × List String) (seed : String) : List Nat × List String :=
  match lookup seed with
  | .ok addrs =>
    match addrs.head? with
    | some addr => (acc.1 ++ [addr], acc.2)
    | none => (acc.1, acc.2 ++ ["No addresses found for " ++ seed])
  | .error e => (acc.1, acc.2 ++ ["Failed to resolve " ++ seed ++ ": " ++ e])

/-- The whole seed resolution loop of src/main.rs lines 280 to 295. -/
def resolve_seeds (lookup : String → Except String (List Nat))
    (seeds : List String) : List Nat × List String :=
  seeds.foldl (resolve_step lookup) ([], [])

/-- Startup path of src/main.rs after argument parsing: resolve the seeds
(lines 280 to 295), then enter the node lifecycle of lines 297 to 330;
nothing inspects the resolution outcome before Node::new. The guard at
line 317 tests the raw peers argument list, not the resolved list, and the
lifecycle outcome further depends on whether the library has put a peer
into the registry by line 318 (node_has_peer), where an empty registry
makes the index panic. -/
def startup (lookup : String → Except String (List Nat))
    (seeds : List String) (node_has_peer : Bool) :
    (List Nat × List String) × StartupRun :=
  (resolve_seeds lookup seeds,
    main_startup_trace (!seeds.isEmpty) node_has_peer)

/-- Modelled from the spec: the DEV_WALLET address constant exported by
snap_coin::economics, which is not under src/. Its concrete value is
immaterial to every claim. -/
def DEV_WALLET : Address := 1

/-- Modelled from the spec: build_block of the snap_coin library (spec
section 4.3), which is not under src/. It constructs an unmined candidate
block carrying the given transactions and coinbase recipient; the caller
computes the proof of work. The hash value of the candidate is opaque to
every claim and is modelled as 0. -/
def build_block (chain : List Block) (transactions : List Nat)
    (coinbase : Address) : Except String Block :=
  let _ := chain
  Except.ok
    { hash := 0, transactions := transactions, coinbase := coinbase,
      pow_ok := false }

/-- Modelled from the spec: Block::compute_pow (spec section 4.2), which is
not under src/. Mining is modelled as setting the mined flag; the claims
only observe that the block submitted at genesis was mined. -/
def compute_pow (b : Block) : Except String Block :=
  Except.ok { b with pow_ok := true }

/-- Modelled from the spec: Blockchain::add_block (spec section 4.3), which
is not under src/. Of its validation steps only the proof-of-work aspect is
modelled: a mined block extends the chain atomically, an unmined one is
rejected and the store is unchanged. The remaining checks (parent,
timestamp, transactions, coinbase) pass for the genesis scenario of spec
section 8. -/
def add_block (chain : List Block) (b : Block) : Except String (List Block) :=
  if b.pow_ok then Except.ok (chain ++ [b]) else Except.error "InvalidPoW"

/-- Modelled from the spec: Node::submit_block, which is not under src/; it
applies the block to the local chain (the broadcast to peers is not
modelled). -/
def submit_block (chain : List Block) (b : Block) : Except String (List Block) :=
  add_block chain b

/-- Embedding of the create-genesis branch of src/main.rs lines 307 to 316:
build a candidate block from an empty transaction list with DEV_WALLET as
coinbase recipient, compute its proof of work, and submit it. -/
def create_genesis_step (chain : List Block) : Except String (List Block) := do
  let transactions : List Nat := []
  let genesis ← build_block chain transactions DEV_WALLET
  let genesis ← compute_pow genesis
  submit_block chain genesis

/-- Accept-all add_block used as a concrete environment in counterexamples:
every block extends the chain. -/
def ex_accept : AddBlockFn := fun chain b => Except.ok (chain ++ [b])

/-- Concrete peer for claim C1: replies Pong with height 0 to the Ping and
an empty hash batch to GetBlockHashes. -/
def ex1_oracle : Oracle := fun k _ =>
  if k = 0 then Except.ok (Command.Pong 0)
  else Except.ok (Command.GetBlockHashesResponse [])

/-- Concrete block whose modelled hash is 7, used for claim C2. -/
def blk7 : Block :=
  { hash := 7, transactions := [], coinbase := 0, pow_ok := true }

/-- Concrete peer for claim C2: advertises height 1, serves the hash batch
with the single hash 5, and answers the GetBlock request for hash 5 with
the block whose hash is 7. -/
def ex2_oracle : Oracle := fun k _ =>
  if k = 0 then Except.ok (Command.Pong 1)
  else if k = 1 then Except.ok (Command.GetBlockHashesResponse [5])
  else Except.ok (Command.GetBlockResponse (some blk7))

/-- Concrete mined block with hash 5, used for claims C3 and C4. -/
def blk5 : Block :=
  { hash := 5, transactions := [], coinbase := 0, pow_ok := true }

/-- Concrete unmined block with hash 6, rejected by ex3_add. -/
def blk6 : Block :=
  { hash := 6, transactions := [], coinbase := 0, pow_ok := false }

/-- Concrete peer for claim C3: batch of hashes 5, 6, 7; serves blk5 for
the first GetBlock and blk6 for every later one. -/
def ex3_oracle : Oracle := fun k _ =>
  if k = 0 then Except.ok (Command.Pong 2)
  else if k = 1 then Except.ok (Command.GetBlockHashesResponse [5, 6, 7])
  else if k = 2 then Except.ok (Command.GetBlockResponse (some blk5))
  else Except.ok (Command.GetBlockResponse (some blk6))

/-- Concrete add_block for claim C3: accepts mined blocks, rejects unmined
ones, leaving the chain unchanged on rejection. -/
def ex3_add : AddBlockFn := fun chain b =>
  if b.pow_ok then Except.ok (chain ++ [b]) else Except.error "InvalidPoW"

/-- Concrete peer for claim C4: a one-hash batch served correctly. -/
def ex4_oracle : Oracle := fun k _ =>
  if k = 0 then Except.ok (Command.Pong 1)
  else if k = 1 then Except.ok (Command.GetBlockHashesResponse [5])
  else Except.ok (Command.GetBlockResponse (some blk5))

/-- Concrete peer for claim C10: a one-hash batch whose GetBlock request is
answered with the absent sentinel. -/
def ex10_oracle : Oracle := fun k _ =>
  if k = 0 then Except.ok (Command.Pong 1)
  else if k = 1 then Except.ok (Command.GetBlockHashesResponse [9])
  else Except.ok (Command.GetBlockResponse none)

/-- Concrete lookup for claim C8: every DNS resolution fails. -/
def failing_lookup : String → Except String (List Nat) :=
  fun _ => Except.error "dns failure"

/-- Concrete lookup for claim C8 in which one seed resolves and every
other name fails. -/
def mixed_lookup : String → Except String (List Nat) := fun s =>
  if s = "good.seed:8998" then Except.ok [1] else Except.error "dns failure"

/-- Helper: a successfully applied prefix of the hash batch contributes its
interleaved request and add events to the front of the loop trace, after
which the loop continues on the remaining hashes with the advanced request
counter and the extended chain. -/
theorem syncLoop_append (oracle : Oracle) (addBlock : AddBlockFn) :
    ∀ (pre : List (Hash × Block)) (k : Nat) (chain chain2 : List Block),
      FetchAddOk oracle addBlock k chain pre chain2 →
      ∀ rest : List Hash,
        SyncRs.syncLoop oracle addBlock k chain (pre.map Prod.fst ++ rest) =
          { trace := interleaveEvents pre ++
              (SyncRs.syncLoop oracle addBlock (k + pre.length) chain2 rest).trace,
            chain := (SyncRs.syncLoop oracle addBlock (k + pre.length) chain2 rest).chain,
            res := (SyncRs.syncLoop oracle addBlock (k + pre.length) chain2 rest).res } := by
  intro pre
  induction pre with
  | nil =>
    intro k chain chain2 hok rest
    simp only [FetchAddOk] at hok
    subst hok
    simp [interleaveEvents]
  | cons p tail ih =>
    intro k chain chain2 hok rest
    obtain ⟨h, b⟩ := p
    simp only [FetchAddOk] at hok
    obtain ⟨h1, c1, h2, h3⟩ := hok
    simp only [List.map_cons, List.cons_append, List.append_eq, SyncRs.syncLoop, h1, h2,
      interleaveEvents]
    rw [ih (k + 1) c1 chain2 h3 rest]
    have hk : k + 1 + tail.length = k + (tail.length + 1) := by omega
    simp [hk]

/-- Helper: the for-loop of sync_blockchain in src/main.rs and the one in
src/sync.rs are the same function. -/
theorem syncLoop_main_eq (oracle : Oracle) (addBlock : AddBlockFn) :
    ∀ (hs : List Hash) (k : Nat) (chain : List Block),
      MainRs.syncLoop oracle addBlock k chain hs =
        SyncRs.syncLoop oracle addBlock k chain hs := by
  intro hs
  induction hs with
  | nil => intro k chain; rfl
  | cons h t ih =>
    intro k chain
    simp only [MainRs.syncLoop, SyncRs.syncLoop]
    cases hc : oracle k (Command.GetBlock h) with
    | error e => rfl
    | ok c =>
      cases c with
      | Ping a => rfl
      | Pong a => rfl
      | GetBlockHashes a b => rfl
      | GetBlockHashesResponse a => rfl
      | GetBlock a => rfl
      | GetBlockResponse ob =>
        cases ob with
        | none => rfl
        | some b =>
          cases hadd : addBlock chain b with
          | error e => simp [hadd]
          | ok c1 => simp [hadd, ih]

/-- Claim C1, counterexample: a run against a peer whose Pong height 0 does
not exceed the local height 0 still issues a GetBlockHashes request after
the Ping, refuting that sync_blockchain returns without issuing any further
requests when the remote height is at most the local height. -/
theorem c1_counterexample :
    ex1_oracle 0 (Command.Ping (get_height ([] : List Block))) =
      Except.ok (Command.Pong 0) ∧
    (SyncRs.sync_blockchain ex1_oracle ex_accept []).res = Except.ok () ∧
    requestsOf (SyncRs.sync_blockchain ex1_oracle ex_accept []) =
      [Command.Ping 0, Command.GetBlockHashes 0 0] := by
  decide

/-- Claim C1 as amended: sync_blockchain has no early return on the height
comparison; after reading Pong it always issues GetBlockHashes with the
local and remote heights, whatever they are, and when the peer answers with
an empty hash sequence the run returns successfully with the blockchain
unmodified and no further requests. -/
theorem c1_empty_batch_returns_ok (oracle : Oracle) (addBlock : AddBlockFn)
    (chain : List Block) (r : Nat)
    (h1 : oracle 0 (Command.Ping (get_height chain)) =
      Except.ok (Command.Pong r))
    (h2 : oracle 1 (Command.GetBlockHashes (get_height chain) r) =
      Except.ok (Command.GetBlockHashesResponse [])) :
    SyncRs.sync_blockchain oracle addBlock chain =
      { trace := [Event.log "[SYNC] Starting initial block download",
          Event.log "[SYNC] Fetching block hashes",
          Event.req (Command.Ping (get_height chain)),
          Event.req (Command.GetBlockHashes (get_height chain) r),
          Event.log "[SYNC] Fetched block hashes"],
        chain := chain, res := Except.ok () } := by
  simp [SyncRs.sync_blockchain, SyncRs.syncLoop, h1, h2]

/-- Claim C1, witness: the amended statement evaluated against the concrete
peer of the counterexample, whose remote height equals the local height. -/
theorem c1_witness :
    SyncRs.sync_blockchain ex1_oracle ex_accept [] =
      { trace := [Event.log "[SYNC] Starting initial block download",
          Event.log "[SYNC] Fetching block hashes",
          Event.req (Command.Ping 0),
          Event.req (Command.GetBlockHashes 0 0),
          Event.log "[SYNC] Fetched block hashes"],
        chain := [], res := Except.ok () } :=
  c1_empty_batch_returns_ok ex1_oracle ex_accept [] 0 rfl rfl

/-- Claim C4: a run in which the peer answers the Ping with Pong r, serves
the hash batch, and serves each hash with a block that add_block accepts,
performs exactly this event sequence: one Ping carrying the local height
read at start, one GetBlockHashes from that local height to r, then for
each hash in batch order a GetBlock request immediately followed by the
add_block call on the fetched block, before the next GetBlock is issued. -/
theorem c4_request_order (oracle : Oracle) (addBlock : AddBlockFn)
    (chain chain2 : List Block) (r : Nat) (pairs : List (Hash × Block))
    (h1 : oracle 0 (Command.Ping (get_height chain)) =
      Except.ok (Command.Pong r))
    (h2 : oracle 1 (Command.GetBlockHashes (get_height chain) r) =
      Except.ok (Command.GetBlockHashesResponse (pairs.map Prod.fst)))
    (h3 : FetchAddOk oracle addBlock 2 chain pairs chain2) :
    SyncRs.sync_blockchain oracle addBlock chain =
      { trace := Event.log "[SYNC] Starting initial block download" ::
          Event.log "[SYNC] Fetching block hashes" ::
          Event.req (Command.Ping (get_height chain)) ::
          Event.req (Command.GetBlockHashes (get_height chain) r) ::
          Event.log "[SYNC] Fetched block hashes" :: interleaveEvents pairs,
        chain := chain2, res := Except.ok () } := by
  have hl := syncLoop_append oracle addBlock pairs 2 chain chain2 h3 []
  simp only [List.append_nil] at hl
  simp [SyncRs.sync_blockchain, h1, h2, hl, SyncRs.syncLoop]

/-- Claim C4, witness: the ordering statement evaluated against a concrete
peer serving a one-hash batch. -/
theorem c4_witness :
    SyncRs.sync_blockchain ex4_oracle ex_accept [] =
      { trace := [Event.log "[SYNC] Starting initial block download",
          Event.log "[SYNC] Fetching block hashes",
          Event.req (Command.Ping 0),
          Event.req (Command.GetBlockHashes 0 1),
          Event.log "[SYNC] Fetched block hashes",
          Event.req (Command.GetBlock 5), Event.add blk5],
        chain := [blk5], res := Except.ok () } :=
  c4_request_order ex4_oracle ex_accept [] [blk5] 1 [(5, blk5)] rfl rfl
    ⟨rfl, [blk5], rfl, rfl⟩

/-- Claim C3: when the peer has served and add_block has accepted a prefix
of the batch and add_block then fails on the next fetched block, the run
returns that error immediately: no GetBlock request is issued for any hash
after the failing one, and the final chain is exactly the chain produced by
the successful prefix, so the failed block and all later ones are not
applied while the earlier ones remain. -/
theorem c3_abort_on_add_block_failure (oracle : Oracle) (addBlock : AddBlockFn)
    (chain chain2 : List Block) (r : Nat) (pre : List (Hash × Block))
    (h : Hash) (b : Block) (rest : List Hash) (e : String)
    (h1 : oracle 0 (Command.Ping (get_height chain)) =
      Except.ok (Command.Pong r))
    (h2 : oracle 1 (Command.GetBlockHashes (get_height chain) r) =
      Except.ok (Command.GetBlockHashesResponse (pre.map Prod.fst ++ h :: rest)))
    (h3 : FetchAddOk oracle addBlock 2 chain pre chain2)
    (h4 : oracle (2 + pre.length) (Command.GetBlock h) =
      Except.ok (Command.GetBlockResponse (some b)))
    (h5 : addBlock chain2 b = Except.error e) :
    SyncRs.sync_blockchain oracle addBlock chain =
      { trace := Event.log "[SYNC] Starting initial block download" ::
          Event.log "[SYNC] Fetching block hashes" ::
          Event.req (Command.Ping (get_height chain)) ::
          Event.req (Command.GetBlockHashes (get_height chain) r) ::
          Event.log "[SYNC] Fetched block hashes" ::
          (interleaveEvents pre ++
            [Event.req (Command.GetBlock h), Event.add b]),
        chain := chain2, res := Except.error e } := by
  have hl := syncLoop_append oracle addBlock pre 2 chain chain2 h3 (h :: rest)
  simp [SyncRs.sync_blockchain, h1, h2, hl, SyncRs.syncLoop, h4, h5]

/-- Claim C3, witness: a concrete run with batch 5, 6, 7 where the block
for hash 6 is rejected; the request for hash 7 is never issued and the
chain keeps exactly the block added for hash 5. -/
theorem c3_witness :
    SyncRs.sync_blockchain ex3_oracle ex3_add [] =
      { trace := [Event.log "[SYNC] Starting initial block download",
          Event.log "[SYNC] Fetching block hashes",
          Event.req (Command.Ping 0),
          Event.req (Command.GetBlockHashes 0 2),
          Event.log "[SYNC] Fetched block hashes",
          Event.req (Command.GetBlock 5), Event.add blk5,
          Event.req (Command.GetBlock 6), Event.add blk6],
        chain := [blk5], res := Except.error "InvalidPoW" } :=
  c3_abort_on_add_block_failure ex3_oracle ex3_add [] [blk5] 2 [(5, blk5)]
    6 blk6 [7] "InvalidPoW" rfl rfl ⟨rfl, [blk5], rfl, rfl⟩ rfl rfl

/-- Claim C10: when the GetBlockResponse for a requested hash carries the
absent sentinel, the run aborts at once with the could-not-fetch error for
that hash: the blockchain stays at the chain produced by the successful
prefix, add_block is not called for the absent hash, and no GetBlock is
issued for any later hash in the batch. -/
theorem c10_absent_block_aborts (oracle : Oracle) (addBlock : AddBlockFn)
    (chain chain2 : List Block) (r : Nat) (pre : List (Hash × Block))
    (h : Hash) (rest : List Hash)
    (h1 : oracle 0 (Command.Ping (get_height chain)) =
      Except.ok (Command.Pong r))
    (h2 : oracle 1 (Command.GetBlockHashes (get_height chain) r) =
      Except.ok (Command.GetBlockHashesResponse (pre.map Prod.fst ++ h :: rest)))
    (h3 : FetchAddOk oracle addBlock 2 chain pre chain2)
    (h4 : oracle (2 + pre.length) (Command.GetBlock h) =
      Except.ok (Command.GetBlockResponse none)) :
    SyncRs.sync_blockchain oracle addBlock chain =
      { trace := Event.log "[SYNC] Starting initial block download" ::
          Event.log "[SYNC] Fetching block hashes" ::
          Event.req (Command.Ping (get_height chain)) ::
          Event.req (Command.GetBlockHashes (get_height chain) r) ::
          Event.log "[SYNC] Fetched block hashes" ::
          (interleaveEvents pre ++ [Event.req (Command.GetBlock h)]),
        chain := chain2,
        res := Except.error ("Could not fetch peer block " ++ dump_base36 h) } := by
  have hl := syncLoop_append oracle addBlock pre 2 chain chain2 h3 (h :: rest)
  simp [SyncRs.sync_blockchain, h1, h2, hl, SyncRs.syncLoop, h4]

/-- Claim C10, witness: a concrete run whose single GetBlock request is
answered with the absent sentinel; the run fails with the could-not-fetch
error and the chain is unchanged. -/
theorem c10_witness :
    SyncRs.sync_blockchain ex10_oracle ex_accept [] =
      { trace := [Event.log "[SYNC] Starting initial block download",
          Event.log "[SYNC] Fetching block hashes",
          Event.req (Command.Ping 0),
          Event.req (Command.GetBlockHashes 0 1),
          Event.log "[SYNC] Fetched block hashes",
          Event.req (Command.GetBlock 9)],
        chain := [],
        res := Except.error ("Could not fetch peer block " ++ dump_base36 9) } :=
  c10_absent_block_aborts ex10_oracle ex_accept [] [] 1 [] 9 [] rfl rfl rfl rfl

/-- Claim C2, counterexample: the peer answers the GetBlock request for
hash 5 with a block whose hash is 7, and the run passes that block to
add_block anyway; sync_blockchain contains no comparison between the
requested hash and the hash of the returned block. -/
theorem c2_counterexample :
    requestsOf (SyncRs.sync_blockchain ex2_oracle ex_accept []) =
      [Command.Ping 0, Command.GetBlockHashes 0 1, Command.GetBlock 5] ∧
    addsOf (SyncRs.sync_blockchain ex2_oracle ex_accept []) = [blk7] ∧
    blk7.hash = 7 ∧ (7 : Nat) ≠ 5 := by
  decide

/-- Claim C2 as amended: sync_blockchain performs no hash verification on
fetched blocks; whenever the reply to a GetBlock request carries a present
block, that block is passed to add_block as received, even when its hash
differs from the requested hash. -/
theorem c2_no_hash_verification (oracle : Oracle) (addBlock : AddBlockFn)
    (chain chain2 : List Block) (r : Nat) (pre : List (Hash × Block))
    (h : Hash) (b : Block) (rest : List Hash)
    (h1 : oracle 0 (Command.Ping (get_height chain)) =
      Except.ok (Command.Pong r))
    (h2 : oracle 1 (Command.GetBlockHashes (get_height chain) r) =
      Except.ok (Command.GetBlockHashesResponse (pre.map Prod.fst ++ h :: rest)))
    (h3 : FetchAddOk oracle addBlock 2 chain pre chain2)
    (h4 : oracle (2 + pre.length) (Command.GetBlock h) =
      Except.ok (Command.GetBlockResponse (some b)))
    (_h5 : b.hash ≠ h) :
    Event.add b ∈ (SyncRs.sync_blockchain oracle addBlock chain).trace := by
  have hl := syncLoop_append oracle addBlock pre 2 chain chain2 h3 (h :: rest)
  cases hadd : addBlock chain2 b with
  | error e =>
    simp [SyncRs.sync_blockchain, h1, h2, hl, SyncRs.syncLoop, h4, hadd]
  | ok c1 =>
    simp [SyncRs.sync_blockchain, h1, h2, hl, SyncRs.syncLoop, h4, hadd]

/-- Claim C2, witness: the no-verification statement evaluated on the
concrete peer that serves the block with hash 7 for the requested hash
5. -/
theorem c2_witness :
    Event.add blk7 ∈ (SyncRs.sync_blockchain ex2_oracle ex_accept []).trace :=
  c2_no_hash_verification ex2_oracle ex_accept [] [] 1 [] 5 blk7 [] rfl rfl
    rfl rfl (by decide)

/-- Claim C9: for every peer-response oracle, add_block behavior, and
starting chain, the sync_blockchain of src/main.rs and the sync_blockchain
of src/sync.rs issue the same request sequence, pass the same block
sequence to add_block, end with the same chain, and return the same
Result; they differ only in emitted log text. -/
theorem c9_main_equals_sync (oracle : Oracle) (addBlock : AddBlockFn)
    (chain : List Block) :
    requestsOf (MainRs.sync_blockchain oracle addBlock chain) =
      requestsOf (SyncRs.sync_blockchain oracle addBlock chain) ∧
    addsOf (MainRs.sync_blockchain oracle addBlock chain) =
      addsOf (SyncRs.sync_blockchain oracle addBlock chain) ∧
    (MainRs.sync_blockchain oracle addBlock chain).chain =
      (SyncRs.sync_blockchain oracle addBlock chain).chain ∧
    (MainRs.sync_blockchain oracle addBlock chain).res =
      (SyncRs.sync_blockchain oracle addBlock chain).res := by
  simp only [MainRs.sync_blockchain, SyncRs.sync_blockchain]
  cases h0 : oracle 0 (Command.Ping (get_height chain)) with
  | error e => simp [h0, requestsOf, addsOf, requestEvent, addEvent]
  | ok c =>
    cases c with
    | Ping a => simp [h0, requestsOf, addsOf, requestEvent, addEvent]
    | GetBlockHashes a b => simp [h0, requestsOf, addsOf, requestEvent, addEvent]
    | GetBlockHashesResponse a => simp [h0, requestsOf, addsOf, requestEvent, addEvent]
    | GetBlock a => simp [h0, requestsOf, addsOf, requestEvent, addEvent]
    | GetBlockResponse a => simp [h0, requestsOf, addsOf, requestEvent, addEvent]
    | Pong r =>
      cases h1 : oracle 1 (Command.GetBlockHashes (get_height chain) r) with
      | error e => simp [h0, h1, requestsOf, addsOf, requestEvent, addEvent]
      | ok c2 =>
        cases c2 with
        | Ping a => simp [h0, h1, requestsOf, addsOf, requestEvent, addEvent]
        | Pong a => simp [h0, h1, requestsOf, addsOf, requestEvent, addEvent]
        | GetBlockHashes a b => simp [h0, h1, requestsOf, addsOf, requestEvent, addEvent]
        | GetBlock a => simp [h0, h1, requestsOf, addsOf, requestEvent, addEvent]
        | GetBlockResponse a => simp [h0, h1, requestsOf, addsOf, requestEvent, addEvent]
        | GetBlockHashesResponse hashes =>
          simp [h0, h1, syncLoop_main_eq, requestsOf, addsOf, requestEvent, addEvent]

/-- Claim C5, counterexample: in every startup path of src/main.rs the
node passes through a state in which is_syncing is true while no IBD task
is alive, because line 298 raises the flag long before line 320 could
spawn the sync task and the no-seed path never spawns one at all;
moreover, when seed peers are configured but the peer registry is empty at
line 318 (for example because no seed resolved), the index into the
registry panics, so the flag is never cleared and no IBD task ever runs.
Both conjuncts of the claim are refuted: a true is_syncing does not imply
a live IBD task, and with seed peers configured the flag does not always
clear when an IBD task completes. -/
theorem c5_counterexample :
    NodeFlags.mk true false ∈ (main_startup_trace true true).flags ∧
    NodeFlags.mk true false ∈ (main_startup_trace false false).flags ∧
    (main_startup_trace true false).panicked = true ∧
    (main_startup_trace true false).flags = [NodeFlags.mk true false] := by
  decide

/-- Claim C5 as amended: is_syncing is raised at startup before any IBD
task exists, so it can be observed true with no live sync task in every
path. When no seed peers are configured, the main task clears it directly
and startup ends with the flag false. When seed peers are configured and a
peer is in the registry at the spawn point, the spawned sync task clears
the flag as its final statement (so it is briefly false while the task is
still alive) and the sequence ends with the flag false and no task alive.
When seed peers are configured but the registry is empty at line 318, the
startup panics at the registry index before any task is spawned and the
flag is never cleared. -/
theorem c5_flag_lifecycle :
    (NodeFlags.mk true false ∈ (main_startup_trace true true).flags ∧
      NodeFlags.mk false true ∈ (main_startup_trace true true).flags ∧
      (main_startup_trace true true).panicked = false ∧
      (main_startup_trace true true).flags.getLast? =
        some (NodeFlags.mk false false)) ∧
    (NodeFlags.mk true false ∈ (main_startup_trace false false).flags ∧
      (main_startup_trace false false).panicked = false ∧
      (main_startup_trace false false).flags.getLast? =
        some (NodeFlags.mk false false)) ∧
    ((main_startup_trace true false).panicked = true ∧
      (main_startup_trace true false).flags = [NodeFlags.mk true false]) := by
  decide

/-- Claim C6, counterexample: an argument vector containing all five
options named by the claim parses to exactly the default configuration, so
none of them toggles anything; the argument loop of src/main.rs recognizes
none of these strings. -/
theorem c6_counterexample :
    parse_args ["node", "--reserved-ips", "10.0.0.1", "--no-ibd",
      "--no-auto-peer", "--headless", "--full-memory"] =
      Except.ok default_config := by
  rfl

/-- Claim C6 as amended: the argument loop leaves the configuration
untouched on each of the five options named by the claim, whatever the
surrounding argument vector, while it does recognize the options that
actually appear in src/main.rs lines 248 to 278: peers, node-path, no-api,
create-genesis, api-port, node-port (and debug, which only initializes a
tracing subscriber). -/
theorem c6_unrecognized_options (args : List String) (cfg : Config) (i : Nat)
    (a : String)
    (hmem : a ∈ ["--reserved-ips", "--no-ibd", "--no-auto-peer",
      "--headless", "--full-memory"]) :
    parse_step args cfg i a = Except.ok cfg ∧
    parse_args ["node", "--no-api", "--create-genesis", "--peers",
        "h1:1,h2:2", "--node-path", "/data/n", "--api-port", "4000",
        "--node-port", "9000"] =
      Except.ok { peers := ["h1:1", "h2:2"], node_path := "/data/n",
                  start_api := false, api_port := 4000, node_port := 9000,
                  create_genesis := true } := by
  refine ⟨?_, by rfl⟩
  simp only [List.mem_cons, List.not_mem_nil, or_false] at hmem
  rcases hmem with rfl | rfl | rfl | rfl | rfl <;> rfl

/-- Claim C6, witness: the unrecognized-option statement evaluated at a
concrete argument vector carrying the no-ibd option. -/
theorem c6_witness :
    parse_step ["node", "--no-ibd"] default_config 1 "--no-ibd" =
      Except.ok default_config :=
  (c6_unrecognized_options ["node", "--no-ibd"] default_config 1 "--no-ibd"
    (by decide)).1

/-- Claim C7: the create-genesis branch builds a candidate block from an
empty transaction list with DEV_WALLET as coinbase recipient, computes its
proof of work, and submits it; starting from the empty chain the submission
succeeds and get_height afterwards returns 1. The library operations it
calls are modelled from the spec. -/
theorem c7_genesis_height :
    create_genesis_step [] =
      Except.ok [{ hash := 0, transactions := [], coinbase := DEV_WALLET,
                   pow_ok := true }] ∧
    (create_genesis_step []).map get_height = Except.ok 1 := by
  exact ⟨rfl, rfl⟩

/-- Claim C8, counterexample: a startup with two configured seeds of which
the first fails to resolve. The resolution loop prints a diagnostic, skips
the failed seed and resolves the second; with the resolved peer in the
registry, the node lifecycle then runs to its end without any abort. The
process neither exits at the resolution failure nor later, refuting that
every seed resolution failure is fatal. -/
theorem c8_counterexample :
    resolve_seeds mixed_lookup ["bad.seed:8998", "good.seed:8998"] =
      ([1], ["Failed to resolve bad.seed:8998: dns failure"]) ∧
    (startup mixed_lookup ["bad.seed:8998", "good.seed:8998"] true).2.panicked
      = false ∧
    (startup mixed_lookup
        ["bad.seed:8998", "good.seed:8998"] true).2.flags.getLast? =
      some (NodeFlags.mk false false) := by
  decide

/-- Claim C8 as amended: a seed whose resolution fails is skipped, not
fatal at the resolution step: the loop iteration appends a diagnostic line
and resolves no address, the loop never aborts, and startup proceeds past
it unconditionally into the node lifecycle. With a peer in the registry at
the spawn point the lifecycle completes despite the failed seed; only when
seeds were configured but the registry stayed empty does the process
abort, through the registry index panic of line 318 rather than a handled
fatal resolution error. -/
theorem c8_skip_and_continue (lookup : String → Except String (List Nat))
    (acc : List Nat × List String) (seed e : String)
    (h : lookup seed = Except.error e) :
    resolve_step lookup acc seed =
      (acc.1, acc.2 ++ ["Failed to resolve " ++ seed ++ ": " ++ e]) ∧
    (∀ seeds : List String, ∀ hp : Bool,
      (startup lookup seeds hp).2 =
        main_startup_trace (!seeds.isEmpty) hp) ∧
    (main_startup_trace true true).panicked = false ∧
    (main_startup_trace true false).panicked = true := by
  refine ⟨?_, fun seeds hp => rfl, by decide, by decide⟩
  simp [resolve_step, h]

/-- Claim C8, witness: the skip-and-continue statement evaluated at the
concrete failing lookup. -/
theorem c8_witness :
    resolve_step failing_lookup ([], []) "seed.example:8998" =
      ([], ["Failed to resolve seed.example:8998: dns failure"]) :=
  (c8_skip_and_continue failing_lookup ([], []) "seed.example:8998"
    "dns failure" rfl).1
